import Mathlib

/-!
Verification of the Star Wars blog data model (`src/models.py`).

The repository declares seven SQLAlchemy tables (`users`, `planets`, `people`,
`vehicles`, `favorite_planets`, `favorite_people`, `favorite_vehicles`) with
relationship declarations and per-record `serialize()` methods.  We embed each
record type as a Lean structure whose fields mirror the declared columns
(nullable columns become `Option`), the store as lists of rows, the declared
relationships as queries over the store, and `serialize()` as functions
producing association lists of a JSON-like value type.
-/

namespace StarWarsBlog

/-- JSON-like values produced by the `serialize()` methods: Python `None`,
strings, ints, booleans, and lists. -/
inductive JValue where
  | null : JValue
  | str : String → JValue
  | num : Int → JValue
  | bool : Bool → JValue
  | arr : List JValue → JValue
deriving Repr

/-- A timezone-aware timestamp, as stored in `subscription_date`; the only
operation `serialize()` uses is `isoformat()`. -/
structure DateTime where
  iso : String
deriving DecidableEq, Repr

/-- Python `datetime.isoformat()`. -/
def DateTime.isoformat (d : DateTime) : String := d.iso

/-- A nullable string column rendered into JSON. -/
def optStr : Option String → JValue
  | some s => .str s
  | none => .null

/-- A nullable integer column rendered into JSON. -/
def optNum : Option Int → JValue
  | some i => .num i
  | none => .null

/-- Row of table `users` (model `User`): `id` primary key, `email` unique and
non-null, `password` non-null, `first_name`/`last_name` nullable,
`subscription_date` a server-assigned timestamp, `is_active` non-null. -/
structure User where
  id : Int
  email : String
  password : String
  first_name : Option String
  last_name : Option String
  subscription_date : Option DateTime
  is_active : Bool
deriving DecidableEq, Repr

/-- Row of table `planets` (model `Planet`): `name` unique non-null, all other
descriptive columns nullable free text. -/
structure Planet where
  id : Int
  name : String
  diameter : Option String
  rotation_period : Option String
  orbital_period : Option String
  gravity : Option String
  population : Option String
  climate : Option String
  terrain : Option String
  surface_water : Option String
deriving DecidableEq, Repr

/-- Row of table `people` (model `Person`): `name` non-null, descriptive
columns nullable, `homeworld_id` a nullable foreign key to `planets.id`. -/
structure Person where
  id : Int
  name : String
  height : Option String
  mass : Option String
  hair_color : Option String
  skin_color : Option String
  eye_color : Option String
  birth_year : Option String
  gender : Option String
  homeworld_id : Option Int
deriving DecidableEq, Repr

/-- Row of table `vehicles` (model `Vehicle`): `name` unique non-null,
`model`/`manufacturer` non-null, remaining columns nullable free text. -/
structure Vehicle where
  id : Int
  name : String
  model : String
  manufacturer : String
  cost_in_credits : Option String
  length : Option String
  max_atmosphering_speed : Option String
  crew : Option String
  passengers : Option String
  cargo_capacity : Option String
  consumables : Option String
  vehicle_class : Option String
deriving DecidableEq, Repr

/-- Row of table `favorite_planets` (model `FavoritePlanet`): composite
primary key `(user_id, planet_id)`, both foreign keys. -/
structure FavoritePlanet where
  user_id : Int
  planet_id : Int
deriving DecidableEq, Repr

/-- Row of table `favorite_people` (model `FavoritePerson`): composite
primary key `(user_id, person_id)`, both foreign keys. -/
structure FavoritePerson where
  user_id : Int
  person_id : Int
deriving DecidableEq, Repr

/-- Row of table `favorite_vehicles` (model `FavoriteVehicle`): composite
primary key `(user_id, vehicle_id)`, both foreign keys. -/
structure FavoriteVehicle where
  user_id : Int
  vehicle_id : Int
deriving DecidableEq, Repr

/-- The relational store: one list of rows per declared table, in insertion
order. -/
structure DB where
  users : List User
  planets : List Planet
  people : List Person
  vehicles : List Vehicle
  favorite_planets : List FavoritePlanet
  favorite_people : List FavoritePerson
  favorite_vehicles : List FavoriteVehicle
deriving DecidableEq, Repr

/-- The relationship `User.favorite_planets`: the `FavoritePlanet` rows whose
`user_id` matches this user. -/
def User.favorite_planets (u : User) (db : DB) : List FavoritePlanet :=
  db.favorite_planets.filter (fun f => f.user_id == u.id)

/-- The relationship `User.favorite_people`: the `FavoritePerson` rows whose
`user_id` matches this user. -/
def User.favorite_people (u : User) (db : DB) : List FavoritePerson :=
  db.favorite_people.filter (fun f => f.user_id == u.id)

/-- The relationship `User.favorite_vehicles`: the `FavoriteVehicle` rows
whose `user_id` matches this user. -/
def User.favorite_vehicles (u : User) (db : DB) : List FavoriteVehicle :=
  db.favorite_vehicles.filter (fun f => f.user_id == u.id)

/-- The relationship `Planet.residents`: the `Person` rows whose
`homeworld_id` references this planet. -/
def Planet.residents (p : Planet) (db : DB) : List Person :=
  db.people.filter (fun per => per.homeworld_id == some p.id)

/-- The relationship `Planet.favorited_by`: the `FavoritePlanet` rows whose
`planet_id` references this planet. -/
def Planet.favorited_by (p : Planet) (db : DB) : List FavoritePlanet :=
  db.favorite_planets.filter (fun f => f.planet_id == p.id)

/-- `User.serialize()`: id, email, names, ISO timestamp or null, active flag,
and the three lists of favorite entity ids; the password is omitted. -/
def User.serialize (u : User) (db : DB) : List (String × JValue) :=
  [ ("id", .num u.id),
    ("email", .str u.email),
    ("first_name", optStr u.first_name),
    ("last_name", optStr u.last_name),
    ("subscription_date",
      match u.subscription_date with
      | some d => .str d.isoformat
      | none => .null),
    ("is_active", .bool u.is_active),
    ("favorite_planet_ids", .arr ((u.favorite_planets db).map (fun f => .num f.planet_id))),
    ("favorite_person_ids", .arr ((u.favorite_people db).map (fun f => .num f.person_id))),
    ("favorite_vehicle_ids", .arr ((u.favorite_vehicles db).map (fun f => .num f.vehicle_id))) ]

/-- `Planet.serialize()`: the descriptive columns plus the ids of the
planet's residents. -/
def Planet.serialize (p : Planet) (db : DB) : List (String × JValue) :=
  [ ("id", .num p.id),
    ("name", .str p.name),
    ("diameter", optStr p.diameter),
    ("rotation_period", optStr p.rotation_period),
    ("orbital_period", optStr p.orbital_period),
    ("gravity", optStr p.gravity),
    ("population", optStr p.population),
    ("climate", optStr p.climate),
    ("terrain", optStr p.terrain),
    ("surface_water", optStr p.surface_water),
    ("resident_ids", .arr ((p.residents db).map (fun r => .num r.id))) ]

/-- `Person.serialize()`: the descriptive columns plus the raw
`homeworld_id` foreign key; no nested homeworld object. -/
def Person.serialize (p : Person) : List (String × JValue) :=
  [ ("id", .num p.id),
    ("name", .str p.name),
    ("height", optStr p.height),
    ("mass", optStr p.mass),
    ("hair_color", optStr p.hair_color),
    ("skin_color", optStr p.skin_color),
    ("eye_color", optStr p.eye_color),
    ("birth_year", optStr p.birth_year),
    ("gender", optStr p.gender),
    ("homeworld_id", optNum p.homeworld_id) ]

/-- `Vehicle.serialize()`: the descriptive columns, no derived collections. -/
def Vehicle.serialize (v : Vehicle) : List (String × JValue) :=
  [ ("id", .num v.id),
    ("name", .str v.name),
    ("model", .str v.model),
    ("manufacturer", .str v.manufacturer),
    ("cost_in_credits", optStr v.cost_in_credits),
    ("length", optStr v.length),
    ("max_atmosphering_speed", optStr v.max_atmosphering_speed),
    ("crew", optStr v.crew),
    ("passengers", optStr v.passengers),
    ("cargo_capacity", optStr v.cargo_capacity),
    ("consumables", optStr v.consumables),
    ("vehicle_class", optStr v.vehicle_class) ]

/-- `FavoritePlanet.serialize()`. -/
def FavoritePlanet.serialize (f : FavoritePlanet) : List (String × JValue) :=
  [ ("user_id", .num f.user_id), ("planet_id", .num f.planet_id) ]

/-- `FavoritePerson.serialize()`. -/
def FavoritePerson.serialize (f : FavoritePerson) : List (String × JValue) :=
  [ ("user_id", .num f.user_id), ("person_id", .num f.person_id) ]

/-- `FavoriteVehicle.serialize()`. -/
def FavoriteVehicle.serialize (f : FavoriteVehicle) : List (String × JValue) :=
  [ ("user_id", .num f.user_id), ("vehicle_id", .num f.vehicle_id) ]

/-- The storage-layer error kind for schema violations (unique constraint or
foreign-key violation), as surfaced to callers. -/
inductive ConstraintViolation where
  | uniqueViolation : ConstraintViolation
  | foreignKeyViolation : ConstraintViolation
deriving DecidableEq, Repr

/-- Fields a caller supplies when creating a `User`; `id` is assigned by the
primary key and `subscription_date` by the server default. -/
structure NewUser where
  email : String
  password : String
  first_name : Option String
  last_name : Option String
  is_active : Bool
deriving DecidableEq, Repr

/-- The next value of an integer primary key over already-assigned ids. -/
def nextId (ids : List Int) : Int :=
  ids.foldl max 0 + 1

/-- Modelled from the spec: creation of a `User` by the storage layer, which
is not part of the repository (only the column declarations are).  The unique
constraint on `email` rejects a duplicate email with a constraint violation;
otherwise the row is appended with a fresh primary key and
`subscription_date` set to the server-assigned current timestamp
(`server_default=func.now()`). -/
def DB.insertUser (db : DB) (nu : NewUser) (now : DateTime) : Except ConstraintViolation DB :=
  if db.users.any (fun u => u.email == nu.email) then
    .error .uniqueViolation
  else
    .ok { db with
      users := db.users ++
        [ { id := nextId (db.users.map User.id),
            email := nu.email,
            password := nu.password,
            first_name := nu.first_name,
            last_name := nu.last_name,
            subscription_date := some now,
            is_active := nu.is_active } ] }

/-- Fields a caller supplies when creating a `Planet`. -/
structure NewPlanet where
  name : String
  diameter : Option String
  rotation_period : Option String
  orbital_period : Option String
  gravity : Option String
  population : Option String
  climate : Option String
  terrain : Option String
  surface_water : Option String
deriving DecidableEq, Repr

/-- Modelled from the spec: creation of a `Planet` by the storage layer
(absent from the repository).  The unique constraint on `name` rejects a
duplicate name. -/
def DB.insertPlanet (db : DB) (np : NewPlanet) : Except ConstraintViolation DB :=
  if db.planets.any (fun p => p.name == np.name) then
    .error .uniqueViolation
  else
    .ok { db with
      planets := db.planets ++
        [ { id := nextId (db.planets.map Planet.id),
            name := np.name,
            diameter := np.diameter,
            rotation_period := np.rotation_period,
            orbital_period := np.orbital_period,
            gravity := np.gravity,
            population := np.population,
            climate := np.climate,
            terrain := np.terrain,
            surface_water := np.surface_water } ] }

/-- Fields a caller supplies when creating a `Person`. -/
structure NewPerson where
  name : String
  height : Option String
  mass : Option String
  hair_color : Option String
  skin_color : Option String
  eye_color : Option String
  birth_year : Option String
  gender : Option String
  homeworld_id : Option Int
deriving DecidableEq, Repr

/-- Modelled from the spec: creation of a `Person` by the storage layer
(absent from the repository).  A non-null `homeworld_id` must reference an
existing `Planet` (foreign key to `planets.id`). -/
def DB.insertPerson (db : DB) (np : NewPerson) : Except ConstraintViolation DB :=
  match np.homeworld_id with
  | some hid =>
    if db.planets.any (fun p => p.id == hid) then
      .ok { db with people := db.people ++ [mkRow np] }
    else
      .error .foreignKeyViolation
  | none => .ok { db with people := db.people ++ [mkRow np] }
where
  /-- Assemble the `people` row from the caller-supplied fields. -/
  mkRow (np : NewPerson) : Person :=
    { id := nextId (db.people.map Person.id),
      name := np.name,
      height := np.height,
      mass := np.mass,
      hair_color := np.hair_color,
      skin_color := np.skin_color,
      eye_color := np.eye_color,
      birth_year := np.birth_year,
      gender := np.gender,
      homeworld_id := np.homeworld_id }

/-- Fields a caller supplies when creating a `Vehicle`. -/
structure NewVehicle where
  name : String
  model : String
  manufacturer : String
  cost_in_credits : Option String
  length : Option String
  max_atmosphering_speed : Option String
  crew : Option String
  passengers : Option String
  cargo_capacity : Option String
  consumables : Option String
  vehicle_class : Option String
deriving DecidableEq, Repr

/-- Modelled from the spec: creation of a `Vehicle` by the storage layer
(absent from the repository).  The unique constraint on `name` rejects a
duplicate name. -/
def DB.insertVehicle (db : DB) (nv : NewVehicle) : Except ConstraintViolation DB :=
  if db.vehicles.any (fun v => v.name == nv.name) then
    .error .uniqueViolation
  else
    .ok { db with
      vehicles := db.vehicles ++
        [ { id := nextId (db.vehicles.map Vehicle.id),
            name := nv.name,
            model := nv.model,
            manufacturer := nv.manufacturer,
            cost_in_credits := nv.cost_in_credits,
            length := nv.length,
            max_atmosphering_speed := nv.max_atmosphering_speed,
            crew := nv.crew,
            passengers := nv.passengers,
            cargo_capacity := nv.cargo_capacity,
            consumables := nv.consumables,
            vehicle_class := nv.vehicle_class } ] }

/-- Modelled from the spec: insertion into `favorite_planets` by the storage
layer (absent from the repository; the table declares the composite primary
key `(user_id, planet_id)` and both foreign keys).  A row with the same pair
already present violates the primary key; a missing user or planet violates a
foreign key; otherwise the row is appended. -/
def DB.insertFavoritePlanet (db : DB) (uid pid : Int) : Except ConstraintViolation DB :=
  if db.favorite_planets.any (fun f => f.user_id == uid && f.planet_id == pid) then
    .error .uniqueViolation
  else if db.users.any (fun u => u.id == uid) && db.planets.any (fun p => p.id == pid) then
    .ok { db with favorite_planets := db.favorite_planets ++ [⟨uid, pid⟩] }
  else
    .error .foreignKeyViolation

/-- Modelled from the spec: insertion into `favorite_people` by the storage
layer (absent from the repository), with the composite primary key
`(user_id, person_id)` and both foreign keys enforced. -/
def DB.insertFavoritePerson (db : DB) (uid pid : Int) : Except ConstraintViolation DB :=
  if db.favorite_people.any (fun f => f.user_id == uid && f.person_id == pid) then
    .error .uniqueViolation
  else if db.users.any (fun u => u.id == uid) && db.people.any (fun p => p.id == pid) then
    .ok { db with favorite_people := db.favorite_people ++ [⟨uid, pid⟩] }
  else
    .error .foreignKeyViolation

/-- Modelled from the spec: insertion into `favorite_vehicles` by the storage
layer (absent from the repository), with the composite primary key
`(user_id, vehicle_id)` and both foreign keys enforced. -/
def DB.insertFavoriteVehicle (db : DB) (uid vid : Int) : Except ConstraintViolation DB :=
  if db.favorite_vehicles.any (fun f => f.user_id == uid && f.vehicle_id == vid) then
    .error .uniqueViolation
  else if db.users.any (fun u => u.id == uid) && db.vehicles.any (fun v => v.id == vid) then
    .ok { db with favorite_vehicles := db.favorite_vehicles ++ [⟨uid, vid⟩] }
  else
    .error .foreignKeyViolation

/-- Modelled from the spec: deletion of a `User` by the storage layer (absent
from the repository).  The `cascade="all, delete-orphan"` declarations on
`User.favorite_planets`, `User.favorite_people` and `User.favorite_vehicles`
delete every favorite row referencing the user. -/
def DB.deleteUser (db : DB) (uid : Int) : DB :=
  { db with
    users := db.users.filter (fun u => u.id != uid),
    favorite_planets := db.favorite_planets.filter (fun f => f.user_id != uid),
    favorite_people := db.favorite_people.filter (fun f => f.user_id != uid),
    favorite_vehicles := db.favorite_vehicles.filter (fun f => f.user_id != uid) }

/-- Modelled from the spec: deletion of a `Planet` by the storage layer
(absent from the repository).  The `cascade="all, delete-orphan"` declaration
on `Planet.favorited_by` deletes the planet's `favorite_planets` rows; the
`Planet.residents` relationship has no delete cascade, so resident `Person`
rows persist, their nullable `homeworld_id` de-associated to null. -/
def DB.deletePlanet (db : DB) (pid : Int) : DB :=
  { db with
    planets := db.planets.filter (fun p => p.id != pid),
    favorite_planets := db.favorite_planets.filter (fun f => f.planet_id != pid),
    people := db.people.map (fun per =>
      if per.homeworld_id == some pid then { per with homeworld_id := none } else per) }

/-- Modelled from the spec: deletion of a `Person` by the storage layer
(absent from the repository).  The `cascade="all, delete-orphan"` declaration
on `Person.favorited_by` deletes the person's `favorite_people` rows. -/
def DB.deletePerson (db : DB) (pid : Int) : DB :=
  { db with
    people := db.people.filter (fun p => p.id != pid),
    favorite_people := db.favorite_people.filter (fun f => f.person_id != pid) }

/-- Modelled from the spec: deletion of a `Vehicle` by the storage layer
(absent from the repository).  The `cascade="all, delete-orphan"` declaration
on `Vehicle.favorited_by` deletes the vehicle's `favorite_vehicles` rows. -/
def DB.deleteVehicle (db : DB) (vid : Int) : DB :=
  { db with
    vehicles := db.vehicles.filter (fun v => v.id != vid),
    favorite_vehicles := db.favorite_vehicles.filter (fun f => f.vehicle_id != vid) }

/-- The store operations available to callers of the schema (create and
delete per entity; a failed insert leaves the store unchanged). -/
inductive Op where
  | insertUser (nu : NewUser) (now : DateTime) : Op
  | insertPlanet (np : NewPlanet) : Op
  | insertPerson (np : NewPerson) : Op
  | insertVehicle (nv : NewVehicle) : Op
  | insertFavoritePlanet (uid pid : Int) : Op
  | insertFavoritePerson (uid pid : Int) : Op
  | insertFavoriteVehicle (uid vid : Int) : Op
  | deleteUser (uid : Int) : Op
  | deletePlanet (pid : Int) : Op
  | deletePerson (pid : Int) : Op
  | deleteVehicle (vid : Int) : Op
deriving DecidableEq, Repr

/-- Apply one operation to the store; a constraint violation rolls the
transaction back, leaving the store unchanged. -/
def DB.applyOp (db : DB) (op : Op) : DB :=
  match op with
  | .insertUser nu now => (db.insertUser nu now).toOption.getD db
  | .insertPlanet np => (db.insertPlanet np).toOption.getD db
  | .insertPerson np => (db.insertPerson np).toOption.getD db
  | .insertVehicle nv => (db.insertVehicle nv).toOption.getD db
  | .insertFavoritePlanet uid pid => (db.insertFavoritePlanet uid pid).toOption.getD db
  | .insertFavoritePerson uid pid => (db.insertFavoritePerson uid pid).toOption.getD db
  | .insertFavoriteVehicle uid vid => (db.insertFavoriteVehicle uid vid).toOption.getD db
  | .deleteUser uid => db.deleteUser uid
  | .deletePlanet pid => db.deletePlanet pid
  | .deletePerson pid => db.deletePerson pid
  | .deleteVehicle vid => db.deleteVehicle vid

/-- The empty store. -/
def DB.empty : DB :=
  { users := [], planets := [], people := [], vehicles := [],
    favorite_planets := [], favorite_people := [], favorite_vehicles := [] }

/-- The store reached by running a sequence of operations from the empty
store. -/
def DB.run (ops : List Op) : DB :=
  ops.foldl DB.applyOp DB.empty

/-- Invariant: in each favorite table, every `(user, entity)` pair appears at
most once. -/
def DB.favPairsUnique (db : DB) : Prop :=
  (db.favorite_planets.map (fun f => (f.user_id, f.planet_id))).Nodup ∧
  (db.favorite_people.map (fun f => (f.user_id, f.person_id))).Nodup ∧
  (db.favorite_vehicles.map (fun f => (f.user_id, f.vehicle_id))).Nodup

instance (db : DB) : Decidable db.favPairsUnique := by
  unfold DB.favPairsUnique
  infer_instance

/-- A concrete timestamp used in concrete stores below. -/
def sampleDateTime : DateTime := ⟨"2024-05-04T00:00:00+00:00"⟩

/-- A concrete user with a subscription timestamp. -/
def sampleUser : User :=
  { id := 1, email := "luke@rebellion.org", password := "hash1",
    first_name := some "Luke", last_name := some "Skywalker",
    subscription_date := some sampleDateTime, is_active := true }

/-- A concrete user whose `subscription_date` is null. -/
def sampleUserNoDate : User :=
  { id := 2, email := "leia@rebellion.org", password := "hash2",
    first_name := some "Leia", last_name := none,
    subscription_date := none, is_active := true }

/-- A concrete planet. -/
def samplePlanet : Planet :=
  { id := 1, name := "Tatooine", diameter := some "10465",
    rotation_period := none, orbital_period := none, gravity := none,
    population := none, climate := some "arid", terrain := none,
    surface_water := none }

/-- A concrete person whose homeworld is `samplePlanet`. -/
def samplePerson : Person :=
  { id := 1, name := "Luke Skywalker", height := some "172",
    mass := none, hair_color := none, skin_color := none,
    eye_color := some "blue", birth_year := none, gender := none,
    homeworld_id := some 1 }

/-- A concrete vehicle. -/
def sampleVehicle : Vehicle :=
  { id := 1, name := "X-34 landspeeder", model := "X-34",
    manufacturer := "SoroSuub Corporation", cost_in_credits := some "10550",
    length := none, max_atmosphering_speed := none, crew := some "1",
    passengers := none, cargo_capacity := none, consumables := none,
    vehicle_class := some "repulsorcraft" }

/-- A concrete store with two users, one planet, one person, one vehicle,
and one favorite row in each association table. -/
def sampleDB : DB :=
  { users := [sampleUser, sampleUserNoDate],
    planets := [samplePlanet],
    people := [samplePerson],
    vehicles := [sampleVehicle],
    favorite_planets := [⟨1, 1⟩],
    favorite_people := [⟨1, 1⟩],
    favorite_vehicles := [⟨1, 1⟩] }

/-- Caller-supplied fields for a fresh user with an email not in
`sampleDB`. -/
def sampleNewUser : NewUser :=
  { email := "han@falcon.org", password := "hash3",
    first_name := some "Han", last_name := some "Solo", is_active := true }

/-- Caller-supplied fields reusing the email of `sampleUser`. -/
def sampleNewUserDup : NewUser :=
  { email := "luke@rebellion.org", password := "hash4",
    first_name := none, last_name := none, is_active := true }

end StarWarsBlog

namespace StarWarsBlog

/-- C1: for every `User` record and store, the mapping returned by
`User.serialize()` contains no `password` key. -/
theorem user_serialize_no_password (db : DB) (u : User) :
    "password" ∉ (u.serialize db).map Prod.fst := by
  simp [User.serialize]

/-- Witness for C1 at a concrete store and user. -/
theorem user_serialize_no_password_witness :
    "password" ∉ (sampleUser.serialize sampleDB).map Prod.fst :=
  user_serialize_no_password sampleDB sampleUser

/-- C7: for every `User` record and store, `User.serialize()` has exactly the
nine keys id, email, first_name, last_name, subscription_date, is_active,
favorite_planet_ids, favorite_person_ids, favorite_vehicle_ids; the
subscription_date entry is an ISO string or null, and the three favorite
entries are the lists of integer ids of the user's favorite associations. -/
theorem user_serialize_shape (db : DB) (u : User) :
    ((u.serialize db).map Prod.fst =
      ["id", "email", "first_name", "last_name", "subscription_date", "is_active",
        "favorite_planet_ids", "favorite_person_ids", "favorite_vehicle_ids"]) ∧
    ((u.serialize db).lookup "subscription_date" = some .null ∨
      ∃ s : String, (u.serialize db).lookup "subscription_date" = some (.str s)) ∧
    ((u.serialize db).lookup "favorite_planet_ids" =
      some (.arr ((u.favorite_planets db).map (fun f => .num f.planet_id)))) ∧
    ((u.serialize db).lookup "favorite_person_ids" =
      some (.arr ((u.favorite_people db).map (fun f => .num f.person_id)))) ∧
    ((u.serialize db).lookup "favorite_vehicle_ids" =
      some (.arr ((u.favorite_vehicles db).map (fun f => .num f.vehicle_id)))) := by
  refine ⟨by simp [User.serialize], ?_, ?_, ?_, ?_⟩
  · cases h : u.subscription_date with
    | none => exact Or.inl (by simp [User.serialize, List.lookup, h])
    | some d => exact Or.inr ⟨d.isoformat, by simp [User.serialize, List.lookup, h]⟩
  · simp [User.serialize, List.lookup]
  · simp [User.serialize, List.lookup]
  · simp [User.serialize, List.lookup]

/-- C8: for every `Person` record, `Person.serialize()` has exactly the
descriptive keys plus `homeworld_id`; the homeworld_id entry equals the raw
foreign-key value, an integer when it is set and null when it is not, with no
nested homeworld object. -/
theorem person_serialize_shape (p : Person) :
    (p.serialize.map Prod.fst =
      ["id", "name", "height", "mass", "hair_color", "skin_color", "eye_color",
        "birth_year", "gender", "homeworld_id"]) ∧
    (p.serialize.lookup "homeworld_id" = some (optNum p.homeworld_id)) ∧
    ((p.homeworld_id = none ∧ p.serialize.lookup "homeworld_id" = some .null) ∨
      ∃ n : Int, p.homeworld_id = some n ∧
        p.serialize.lookup "homeworld_id" = some (.num n)) := by
  refine ⟨by simp [Person.serialize], by simp [Person.serialize, List.lookup], ?_⟩
  cases h : p.homeworld_id with
  | none => exact Or.inl ⟨rfl, by simp [Person.serialize, List.lookup, optNum, h]⟩
  | some n => exact Or.inr ⟨n, rfl, by simp [Person.serialize, List.lookup, optNum, h]⟩

/-- C9: `User.serialize()` on a user whose `subscription_date` is null
returns normally, with the subscription_date entry equal to null. -/
theorem user_serialize_null_subscription (db : DB) (u : User)
    (h : u.subscription_date = none) :
    (u.serialize db).lookup "subscription_date" = some .null := by
  simp [User.serialize, List.lookup, h]

/-- Witness for C9: a concrete user with a null `subscription_date`. -/
theorem user_serialize_null_subscription_witness :
    sampleUserNoDate.subscription_date = none ∧
      (sampleUserNoDate.serialize sampleDB).lookup "subscription_date" = some .null :=
  ⟨rfl, user_serialize_null_subscription sampleDB sampleUserNoDate rfl⟩

/-- C10: for every `User` record and store, the favorite_planet_ids entry of
`User.serialize()` is exactly the map of `planet_id` over the user's
`favorite_planets` rows in store order — one element per row, no
deduplication or reordering — and likewise for favorite_person_ids and
favorite_vehicle_ids. -/
theorem user_serialize_favorite_lists (db : DB) (u : User) :
    ((u.serialize db).lookup "favorite_planet_ids" =
      some (.arr (((db.favorite_planets.filter (fun f => f.user_id == u.id)).map
        (fun f => .num f.planet_id)))) ∧
      ∃ l : List JValue, (u.serialize db).lookup "favorite_planet_ids" = some (.arr l) ∧
        l.length = (u.favorite_planets db).length) ∧
    ((u.serialize db).lookup "favorite_person_ids" =
      some (.arr (((db.favorite_people.filter (fun f => f.user_id == u.id)).map
        (fun f => .num f.person_id)))) ∧
      ∃ l : List JValue, (u.serialize db).lookup "favorite_person_ids" = some (.arr l) ∧
        l.length = (u.favorite_people db).length) ∧
    ((u.serialize db).lookup "favorite_vehicle_ids" =
      some (.arr (((db.favorite_vehicles.filter (fun f => f.user_id == u.id)).map
        (fun f => .num f.vehicle_id)))) ∧
      ∃ l : List JValue, (u.serialize db).lookup "favorite_vehicle_ids" = some (.arr l) ∧
        l.length = (u.favorite_vehicles db).length) := by
  refine ⟨⟨?_, ?_⟩, ⟨?_, ?_⟩, ?_, ?_⟩
  · simp [User.serialize, User.favorite_planets, List.lookup]
  · exact ⟨(u.favorite_planets db).map (fun f => .num f.planet_id),
      by simp [User.serialize, List.lookup], by simp⟩
  · simp [User.serialize, User.favorite_people, List.lookup]
  · exact ⟨(u.favorite_people db).map (fun f => .num f.person_id),
      by simp [User.serialize, List.lookup], by simp⟩
  · simp [User.serialize, User.favorite_vehicles, List.lookup]
  · exact ⟨(u.favorite_vehicles db).map (fun f => .num f.vehicle_id),
      by simp [User.serialize, List.lookup], by simp⟩

/-- C2: for every `Planet` record and store, the resident_ids entry of
`Planet.serialize()` is a list of integer ids containing exactly the ids of
the `Person` rows whose `homeworld_id` equals the planet's id. -/
theorem planet_serialize_resident_ids (db : DB) (p : Planet) :
    ∃ ids : List Int,
      (p.serialize db).lookup "resident_ids" = some (.arr (ids.map JValue.num)) ∧
      ∀ i : Int, i ∈ ids ↔ ∃ per ∈ db.people, per.id = i ∧ per.homeworld_id = some p.id := by
  refine ⟨(p.residents db).map Person.id, ?_, ?_⟩
  · simp [Planet.serialize, List.lookup, List.map_map]
  · intro i
    simp only [Planet.residents, List.mem_map, List.mem_filter, beq_iff_eq]
    constructor
    · rintro ⟨per, ⟨hmem, hhw⟩, hid⟩
      exact ⟨per, hmem, hid, hhw⟩
    · rintro ⟨per, hmem, hid, hhw⟩
      exact ⟨per, ⟨hmem, hhw⟩, hid⟩

/-- C3: deleting a `User` removes every row in favorite_planets,
favorite_people and favorite_vehicles whose `user_id` is the deleted user's
id; no favorite row referencing that user remains, while the declared cascade
touches nothing else. -/
theorem deleteUser_removes_all_favorites (db : DB) (uid : Int) :
    (∀ f ∈ (db.deleteUser uid).favorite_planets, f.user_id ≠ uid) ∧
    (∀ f ∈ (db.deleteUser uid).favorite_people, f.user_id ≠ uid) ∧
    (∀ f ∈ (db.deleteUser uid).favorite_vehicles, f.user_id ≠ uid) ∧
    (∀ f ∈ db.favorite_planets, f.user_id ≠ uid → f ∈ (db.deleteUser uid).favorite_planets) ∧
    (∀ f ∈ db.favorite_people, f.user_id ≠ uid → f ∈ (db.deleteUser uid).favorite_people) ∧
    (∀ f ∈ db.favorite_vehicles, f.user_id ≠ uid → f ∈ (db.deleteUser uid).favorite_vehicles) := by
  refine ⟨?_, ?_, ?_, ?_, ?_, ?_⟩ <;>
    · intro f hf
      simp [DB.deleteUser, List.mem_filter] at *
      tauto

/-- Witness for C3 at a concrete store: after deleting user 1, no favorite
row with user_id 1 survives in any table. -/
theorem deleteUser_removes_all_favorites_witness :
    (∀ f ∈ (sampleDB.deleteUser 1).favorite_planets, f.user_id ≠ 1) ∧
      (∀ f ∈ (sampleDB.deleteUser 1).favorite_people, f.user_id ≠ 1) ∧
      (∀ f ∈ (sampleDB.deleteUser 1).favorite_vehicles, f.user_id ≠ 1) := by
  have h := deleteUser_removes_all_favorites sampleDB 1
  exact ⟨h.1, h.2.1, h.2.2.1⟩

/-- C5: deleting a `Planet` deletes every favorite_planets row whose
`planet_id` is the deleted planet's id, while the `people` table keeps
exactly the same rows by id (residents of the deleted planet included). -/
theorem deletePlanet_cascades_favorites_keeps_people (db : DB) (pid : Int) :
    (∀ f ∈ (db.deletePlanet pid).favorite_planets, f.planet_id ≠ pid) ∧
    ((db.deletePlanet pid).people.map Person.id = db.people.map Person.id) := by
  constructor
  · intro f hf
    simp [DB.deletePlanet, List.mem_filter] at hf
    exact hf.2
  · show (db.people.map _).map Person.id = _
    rw [List.map_map]
    refine List.map_congr_left (fun per _ => ?_)
    by_cases h : per.homeworld_id = some pid <;> simp [h]

/-- Witness for C5 at a concrete store: deleting planet 1 (which has a
resident) empties its favorite rows and keeps the person row. -/
theorem deletePlanet_cascades_favorites_keeps_people_witness :
    (∀ f ∈ (sampleDB.deletePlanet 1).favorite_planets, f.planet_id ≠ 1) ∧
      ((sampleDB.deletePlanet 1).people.map Person.id = sampleDB.people.map Person.id) :=
  deletePlanet_cascades_favorites_keeps_people sampleDB 1

/-- C6: creating a `User` with an email already in use fails with a
constraint violation and leaves the store unchanged; creating one with a
fresh email succeeds, appending a row whose `subscription_date` is the
non-null server timestamp. -/
theorem insertUser_email_uniqueness (db : DB) (nu : NewUser) (now : DateTime) :
    ((∃ u ∈ db.users, u.email = nu.email) →
      db.insertUser nu now = .error .uniqueViolation ∧
        db.applyOp (.insertUser nu now) = db) ∧
    ((∀ u ∈ db.users, u.email ≠ nu.email) →
      ∃ w : User, db.insertUser nu now = .ok { db with users := db.users ++ [w] } ∧
        w.email = nu.email ∧ w.subscription_date = some now ∧
        w.subscription_date ≠ none) := by
  constructor
  · rintro ⟨u, hu, he⟩
    have hany : db.users.any (fun u => u.email == nu.email) = true :=
      List.any_eq_true.2 ⟨u, hu, by simp [he]⟩
    constructor
    · simp [DB.insertUser, hany]
    · simp [DB.applyOp, DB.insertUser, hany, Except.toOption]
  · intro hfresh
    have hany : db.users.any (fun u => u.email == nu.email) = false := by
      simp only [List.any_eq_false, beq_iff_eq]
      exact hfresh
    have hins : db.insertUser nu now = .ok { db with users := db.users ++
        [ { id := nextId (db.users.map User.id), email := nu.email,
            password := nu.password, first_name := nu.first_name,
            last_name := nu.last_name, subscription_date := some now,
            is_active := nu.is_active } ] } := by
      simp [DB.insertUser, hany]
    exact ⟨_, hins, rfl, rfl, by simp⟩

/-- Witness for C6: in the concrete store, reusing `sampleUser`'s email is
rejected and a fresh email is accepted with the server timestamp. -/
theorem insertUser_email_uniqueness_witness :
    (sampleDB.insertUser sampleNewUserDup sampleDateTime = .error .uniqueViolation ∧
      sampleDB.applyOp (.insertUser sampleNewUserDup sampleDateTime) = sampleDB) ∧
    ∃ w : User,
      sampleDB.insertUser sampleNewUser sampleDateTime =
        .ok { sampleDB with users := sampleDB.users ++ [w] } ∧
      w.email = sampleNewUser.email ∧ w.subscription_date = some sampleDateTime ∧
      w.subscription_date ≠ none := by
  constructor
  · exact (insertUser_email_uniqueness sampleDB sampleNewUserDup sampleDateTime).1
      ⟨sampleUser, by simp [sampleDB], rfl⟩
  · exact (insertUser_email_uniqueness sampleDB sampleNewUser sampleDateTime).2
      (by decide)

/-- Filtering a table cannot introduce a duplicate image under a key map. -/
theorem nodup_map_filter {α β : Type} (l : List α) (p : α → Bool) (f : α → β)
    (h : (l.map f).Nodup) : ((l.filter p).map f).Nodup :=
  h.sublist (List.Sublist.map f (List.filter_sublist l))

/-- Appending a row whose key image is new keeps the key images
duplicate-free. -/
theorem nodup_map_append {α β : Type} (l : List α) (x : α) (f : α → β)
    (h : (l.map f).Nodup) (hx : f x ∉ l.map f) : ((l ++ [x]).map f).Nodup := by
  rw [List.map_append, List.map_singleton]
  refine h.append (List.nodup_singleton _) ?_
  intro a ha hm
  rw [List.mem_singleton] at hm
  subst hm
  exact hx ha

/-- Every store operation preserves the at-most-once invariant on the three
favorite tables. -/
theorem favPairsUnique_applyOp (db : DB) (op : Op) (h : db.favPairsUnique) :
    (db.applyOp op).favPairsUnique := by
  obtain ⟨h1, h2, h3⟩ := h
  cases op with
  | insertUser nu now =>
    simp only [DB.applyOp, DB.insertUser]
    split <;> exact ⟨h1, h2, h3⟩
  | insertPlanet np =>
    simp only [DB.applyOp, DB.insertPlanet]
    split <;> exact ⟨h1, h2, h3⟩
  | insertPerson np =>
    simp only [DB.applyOp, DB.insertPerson]
    split <;> first
      | exact ⟨h1, h2, h3⟩
      | split <;> exact ⟨h1, h2, h3⟩
  | insertVehicle nv =>
    simp only [DB.applyOp, DB.insertVehicle]
    split <;> exact ⟨h1, h2, h3⟩
  | insertFavoritePlanet uid pid =>
    simp only [DB.applyOp, DB.insertFavoritePlanet]
    split
    · exact ⟨h1, h2, h3⟩
    · split
      · rename_i hdup _
        refine ⟨nodup_map_append _ _ _ h1 ?_, h2, h3⟩
        intro hm
        obtain ⟨f, hf, heq⟩ := List.mem_map.1 hm
        obtain ⟨e1, e2⟩ := Prod.mk.injEq .. ▸ heq
        exact hdup (List.any_eq_true.2 ⟨f, hf, by simp [e1, e2]⟩)
      · exact ⟨h1, h2, h3⟩
  | insertFavoritePerson uid pid =>
    simp only [DB.applyOp, DB.insertFavoritePerson]
    split
    · exact ⟨h1, h2, h3⟩
    · split
      · rename_i hdup _
        refine ⟨h1, nodup_map_append _ _ _ h2 ?_, h3⟩
        intro hm
        obtain ⟨f, hf, heq⟩ := List.mem_map.1 hm
        obtain ⟨e1, e2⟩ := Prod.mk.injEq .. ▸ heq
        exact hdup (List.any_eq_true.2 ⟨f, hf, by simp [e1, e2]⟩)
      · exact ⟨h1, h2, h3⟩
  | insertFavoriteVehicle uid vid =>
    simp only [DB.applyOp, DB.insertFavoriteVehicle]
    split
    · exact ⟨h1, h2, h3⟩
    · split
      · rename_i hdup _
        refine ⟨h1, h2, nodup_map_append _ _ _ h3 ?_⟩
        intro hm
        obtain ⟨f, hf, heq⟩ := List.mem_map.1 hm
        obtain ⟨e1, e2⟩ := Prod.mk.injEq .. ▸ heq
        exact hdup (List.any_eq_true.2 ⟨f, hf, by simp [e1, e2]⟩)
      · exact ⟨h1, h2, h3⟩
  | deleteUser uid =>
    exact ⟨nodup_map_filter _ _ _ h1, nodup_map_filter _ _ _ h2,
      nodup_map_filter _ _ _ h3⟩
  | deletePlanet pid =>
    exact ⟨nodup_map_filter _ _ _ h1, h2, h3⟩
  | deletePerson pid =>
    exact ⟨h1, nodup_map_filter _ _ _ h2, h3⟩
  | deleteVehicle vid =>
    exact ⟨h1, h2, nodup_map_filter _ _ _ h3⟩

/-- Running any operation sequence from any invariant-satisfying store keeps
the invariant. -/
theorem favPairsUnique_foldl (ops : List Op) (db : DB) (h : db.favPairsUnique) :
    (ops.foldl DB.applyOp db).favPairsUnique := by
  induction ops generalizing db with
  | nil => exact h
  | cons op rest ih => exact ih _ (favPairsUnique_applyOp db op h)

/-- C4: inserting a `(user_id, planet_id)` pair already present in
favorite_planets fails with a constraint violation and leaves the store
unchanged; and in every store reachable by running operations from the empty
store, each `(user, entity)` pair appears at most once per favorite table. -/
theorem favorite_pair_at_most_once (db : DB) (uid pid : Int) (ops : List Op) :
    ((⟨uid, pid⟩ : FavoritePlanet) ∈ db.favorite_planets →
      db.insertFavoritePlanet uid pid = .error .uniqueViolation ∧
        db.applyOp (.insertFavoritePlanet uid pid) = db) ∧
    (DB.run ops).favPairsUnique := by
  constructor
  · intro hmem
    have hany : (db.favorite_planets.any fun f =>
        f.user_id == uid && f.planet_id == pid) = true :=
      List.any_eq_true.2 ⟨⟨uid, pid⟩, hmem, by simp⟩
    constructor
    · simp [DB.insertFavoritePlanet, hany]
    · simp [DB.applyOp, DB.insertFavoritePlanet, hany, Except.toOption]
  · exact favPairsUnique_foldl ops DB.empty (by decide)

/-- Witness for C4: in the concrete store the pair `(1, 1)` is already a
favorite planet row, so reinserting it is rejected and changes nothing, and
a concrete operation run satisfies the invariant. -/
theorem favorite_pair_at_most_once_witness :
    (sampleDB.insertFavoritePlanet 1 1 = .error .uniqueViolation ∧
      sampleDB.applyOp (.insertFavoritePlanet 1 1) = sampleDB) ∧
    (DB.run [.insertUser sampleNewUser sampleDateTime]).favPairsUnique := by
  have h := favorite_pair_at_most_once sampleDB 1 1
    [.insertUser sampleNewUser sampleDateTime]
  exact ⟨h.1 (by simp [sampleDB]), h.2⟩

/-- Witness for C2 at a concrete store and planet. -/
theorem planet_serialize_resident_ids_witness :
    ∃ ids : List Int,
      (samplePlanet.serialize sampleDB).lookup "resident_ids" =
        some (.arr (ids.map JValue.num)) ∧
      ∀ i : Int, i ∈ ids ↔
        ∃ per ∈ sampleDB.people, per.id = i ∧ per.homeworld_id = some samplePlanet.id :=
  planet_serialize_resident_ids sampleDB samplePlanet

/-- Witness for C7 at a concrete store and user. -/
theorem user_serialize_shape_witness :
    ((sampleUser.serialize sampleDB).map Prod.fst =
      ["id", "email", "first_name", "last_name", "subscription_date", "is_active",
        "favorite_planet_ids", "favorite_person_ids", "favorite_vehicle_ids"]) ∧
    ((sampleUser.serialize sampleDB).lookup "subscription_date" = some .null ∨
      ∃ s : String, (sampleUser.serialize sampleDB).lookup "subscription_date" =
        some (.str s)) ∧
    ((sampleUser.serialize sampleDB).lookup "favorite_planet_ids" =
      some (.arr ((sampleUser.favorite_planets sampleDB).map (fun f => .num f.planet_id)))) ∧
    ((sampleUser.serialize sampleDB).lookup "favorite_person_ids" =
      some (.arr ((sampleUser.favorite_people sampleDB).map (fun f => .num f.person_id)))) ∧
    ((sampleUser.serialize sampleDB).lookup "favorite_vehicle_ids" =
      some (.arr ((sampleUser.favorite_vehicles sampleDB).map (fun f => .num f.vehicle_id)))) :=
  user_serialize_shape sampleDB sampleUser

/-- Witness for C8 at a concrete person. -/
theorem person_serialize_shape_witness :
    (samplePerson.serialize.map Prod.fst =
      ["id", "name", "height", "mass", "hair_color", "skin_color", "eye_color",
        "birth_year", "gender", "homeworld_id"]) ∧
    (samplePerson.serialize.lookup "homeworld_id" = some (optNum samplePerson.homeworld_id)) ∧
    ((samplePerson.homeworld_id = none ∧
        samplePerson.serialize.lookup "homeworld_id" = some .null) ∨
      ∃ n : Int, samplePerson.homeworld_id = some n ∧
        samplePerson.serialize.lookup "homeworld_id" = some (.num n)) :=
  person_serialize_shape samplePerson

/-- Witness for C10 at a concrete store and user. -/
theorem user_serialize_favorite_lists_witness :
    ((sampleUser.serialize sampleDB).lookup "favorite_planet_ids" =
      some (.arr (((sampleDB.favorite_planets.filter (fun f => f.user_id == sampleUser.id)).map
        (fun f => .num f.planet_id)))) ∧
      ∃ l : List JValue,
        (sampleUser.serialize sampleDB).lookup "favorite_planet_ids" = some (.arr l) ∧
        l.length = (sampleUser.favorite_planets sampleDB).length) ∧
    ((sampleUser.serialize sampleDB).lookup "favorite_person_ids" =
      some (.arr (((sampleDB.favorite_people.filter (fun f => f.user_id == sampleUser.id)).map
        (fun f => .num f.person_id)))) ∧
      ∃ l : List JValue,
        (sampleUser.serialize sampleDB).lookup "favorite_person_ids" = some (.arr l) ∧
        l.length = (sampleUser.favorite_people sampleDB).length) ∧
    ((sampleUser.serialize sampleDB).lookup "favorite_vehicle_ids" =
      some (.arr (((sampleDB.favorite_vehicles.filter (fun f => f.user_id == sampleUser.id)).map
        (fun f => .num f.vehicle_id)))) ∧
      ∃ l : List JValue,
        (sampleUser.serialize sampleDB).lookup "favorite_vehicle_ids" = some (.arr l) ∧
        l.length = (sampleUser.favorite_vehicles sampleDB).length) :=
  user_serialize_favorite_lists sampleDB sampleUser

end StarWarsBlog
